import Mathlib

/-!
Verification of the Librarity book ingestion + retrieval pipeline.

Shallow embedding of the backend subsystem covered by the specification:
- `services/token_manager.py` (TokenManager.check_token_limit / consume_tokens)
- `services/langchain_service.py` (LangChainPipeline: collection creation,
  ingestion, similarity search, content filter, chat orchestration)
- `api/chat.py` (chat_with_book endpoint)
- `workers/tasks.py` (process_book_task, the slice after file download and
  text extraction)

External collaborators (Qdrant, the embedding model, the LLM, the text
splitter, SQLAlchemy commits) are modelled as explicit environment inputs:
their outcomes are parameters, and the control flow that reacts to those
outcomes is translated from the source.
-/

namespace Librarity

/-- Slice of `models/subscription.py` used by the token manager. -/
structure Subscription where
  tokens_used : Nat
  token_limit : Nat
deriving DecidableEq, Repr

/-- Slice of `models/token_usage.py`: one TokenUsage row. -/
structure TokenUsageRec where
  user_id : String
  tokens_used : Nat
  action : String
  mode : Option String
deriving DecidableEq, Repr

/-- `models/chat.py` ChatMode enum. -/
inductive ChatMode where
  | BOOK_BRAIN
  | AUTHOR
  | COACH
  | CITATION
deriving DecidableEq, Repr

/-- `ChatMode.value` string, as stored on usage records. -/
def ChatMode.value : ChatMode → String
  | .BOOK_BRAIN => "book_brain"
  | .AUTHOR => "author"
  | .COACH => "coach"
  | .CITATION => "citation"

/-- Slice of `models/chat.py`: one Chat row (one exchange). -/
structure ChatRec where
  session_id : String
  mode : ChatMode
  user_message : String
  ai_response : String
  tokens_used : Nat
deriving DecidableEq, Repr

/-- Committed database state, restricted to the rows of one user that the
chat endpoint and the token manager touch. -/
structure Db where
  subscription : Option Subscription
  usages : List TokenUsageRec
  chats : List ChatRec
deriving DecidableEq, Repr

/-- A SQLAlchemy `AsyncSession` over `Db`: the committed state plus the
pending (not yet committed) object additions and attribute mutations. -/
structure Sess where
  committed : Db
  pendingSub : Option Subscription
  pendingUsages : List TokenUsageRec
  pendingChats : List ChatRec
deriving DecidableEq, Repr

/-- A fresh session, as handed to an endpoint by the `get_db` dependency. -/
def Sess.fresh (db : Db) : Sess :=
  { committed := db, pendingSub := none, pendingUsages := [], pendingChats := [] }

/-- What a `select(Subscription)` sees through the session: the pending
mutation if one exists, otherwise the committed row. -/
def Sess.currentSub (s : Sess) : Option Subscription :=
  match s.pendingSub with
  | some sub => some sub
  | none => s.committed.subscription

/-- The database state that a successful commit of the session produces:
all pending changes applied together. -/
def Sess.applyPending (s : Sess) : Db :=
  { subscription :=
      match s.pendingSub with
      | some sub => some sub
      | none => s.committed.subscription
    usages := s.committed.usages ++ s.pendingUsages
    chats := s.committed.chats ++ s.pendingChats }

/-- `db.commit()`: atomically applies every pending change, or fails and
leaves the committed state untouched (the transaction aborts as a whole).
The success of the commit is an environment input. -/
def Sess.commit (ok : Bool) (s : Sess) : Except String Sess :=
  if ok then .ok (Sess.fresh s.applyPending) else .error "commit failed"

/-- FastAPI `HTTPException`, reduced to status code and detail text. In the
source the 402 detail is a structured dict; it is summarised by its
`error` field here. -/
structure HttpError where
  status_code : Nat
  detail : String
deriving DecidableEq, Repr

def subscriptionNotFound : HttpError :=
  { status_code := 404, detail := "Subscription not found" }

def tokenLimitExceeded : HttpError :=
  { status_code := 402, detail := "Token limit exceeded" }

/-- `TokenManager.check_token_limit` (services/token_manager.py): raises 404
when the user has no Subscription row, raises 402 when
`tokens_used + tokens_needed > token_limit`, otherwise returns True. -/
def check_token_limit (s : Sess) (tokens_needed : Nat) : Except HttpError Bool :=
  match s.currentSub with
  | none => .error subscriptionNotFound
  | some sub =>
      if sub.tokens_used + tokens_needed > sub.token_limit then
        .error tokenLimitExceeded
      else
        .ok true

/-- `TokenManager.consume_tokens` (services/token_manager.py): if a
Subscription row exists, adds `tokens_used` to it, records a TokenUsage
row, and commits the session; if none exists, it does nothing and raises
no error. The commit outcome is an environment input; a failed commit
surfaces as an exception. -/
def consume_tokens (s : Sess) (user_id : String) (tokens_used : Nat)
    (action : String) (mode : Option String) (commitOk : Bool) :
    Except String Sess :=
  match s.currentSub with
  | none => .ok s
  | some sub =>
      let s' := { s with
        pendingSub := some { sub with tokens_used := sub.tokens_used + tokens_used }
        pendingUsages := s.pendingUsages ++
          [{ user_id := user_id, tokens_used := tokens_used, action := action, mode := mode }] }
      Sess.commit commitOk s'

/-! ## Ingestion pipeline (langchain_service.py + workers/tasks.py) -/

/-- The Qdrant deployment, viewed as a map from collection name to the
number of stored points (segment count) in that collection. -/
abbrev VectorStore := List (String × Nat)

/-- Number of points stored in the named collection, `none` when the
collection does not exist. -/
def collectionCount (store : VectorStore) (name : String) : Option Nat :=
  (store.find? (fun c => c.1 == name)).map (fun c => c.2)

/-- `LangChainPipeline.create_book_collection` (services/langchain_service.py
lines 58-80): builds the name `book_{book_id}`; if a collection with that
name already exists it is KEPT AS IS (no deletion, no recreation),
otherwise an empty collection is created. Returns the collection name. -/
def create_book_collection (store : VectorStore) (book_id : String) :
    VectorStore × String :=
  let collection_name := "book_" ++ book_id
  if store.any (fun c => c.1 == collection_name) then
    (store, collection_name)
  else
    (store ++ [(collection_name, 0)], collection_name)

/-- Add `n` points to the named collection (the batched
`qdrant.upsert` loop; fresh UUID point ids never overwrite, so an upsert
of `n` points grows the collection by `n`). -/
def upsertPoints (store : VectorStore) (name : String) (n : Nat) : VectorStore :=
  store.map (fun c => if c.1 == name then (c.1, c.2 + n) else c)

/-- `LangChainPipeline.process_and_embed_book` (services/langchain_service.py
lines 82-129): create (or keep) the book's collection, split the text into
chunks (`split` models the RecursiveCharacterTextSplitter collaborator),
embed each chunk with a silent `try/except continue` — `embedOk i` tells
whether embedding chunk `i` succeeds — upsert the successfully embedded
points, and return how many points were uploaded. -/
def process_and_embed_book (split : String → List String)
    (embedOk : Nat → Bool) (store : VectorStore) (book_id text : String) :
    VectorStore × Nat :=
  let r := create_book_collection store book_id
  let chunks := split text
  let points := ((List.range chunks.length).filter (fun i => embedOk i)).length
  (upsertPoints r.1 r.2 points, points)

/-- Slice of `models/book.py` mutated by the ingestion worker. -/
structure BookRec where
  is_processed : Bool
  processing_status : String
  processing_error : Option String
  total_chunks : Nat
deriving DecidableEq, Repr

/-- `process_book_task` (workers/tasks.py lines 62-219), the slice that runs
after the file has been downloaded and its text extracted (blob store and
text extractor are external collaborators): validate that the text is
non-trivial (`len(text) < 100` raises, caught by the task's except branch
which marks the book failed), run `process_and_embed_book`, then mark the
book completed with `total_chunks` set to the number of uploaded points.
No failure-fraction threshold is ever evaluated. -/
def process_book_task (split : String → List String) (embedOk : Nat → Bool)
    (store : VectorStore) (book : BookRec) (book_id text : String) :
    BookRec × VectorStore :=
  if text.length < 100 then
    ({ book with
        processing_status := "failed"
        processing_error := some "Extracted text is too short or empty" },
      store)
  else
    let r := process_and_embed_book split embedOk store book_id text
    ({ book with
        is_processed := true
        processing_status := "completed"
        processing_error := book.processing_error
        total_chunks := r.2 },
      r.1)

/-! ## Similarity search and chat (langchain_service.py) -/

/-- One scored result of a Qdrant search, already carrying the payload
fields that `search_similar_chunks` reads. Similarity scores are carried
opaquely (their numeric type plays no role in any property). -/
structure ScoredPoint where
  text : String
  score : Int
  page : Option Nat
  chapter : Option String
  chunk_index : Option Nat
deriving DecidableEq, Repr

instance exceptDecEq {ε α : Type} [DecidableEq ε] [DecidableEq α] :
    DecidableEq (Except ε α) := fun a b =>
  match a, b with
  | .ok x, .ok y =>
      if h : x = y then .isTrue (by rw [h])
      else .isFalse (fun hc => by injection hc with h'; exact h h')
  | .error x, .error y =>
      if h : x = y then .isTrue (by rw [h])
      else .isFalse (fun hc => by injection hc with h'; exact h h')
  | .ok _, .error _ => .isFalse (fun hc => by injection hc)
  | .error _, .ok _ => .isFalse (fun hc => by injection hc)

/-- Outcomes of the external calls made by the chat path of
`LangChainPipeline`: the query-embedding call, the Qdrant search (its
value is the similarity-ranked candidate list; the `limit` parameter is
applied to it), and the LLM call (`self.llm.ainvoke`). `.error` models
the call raising. -/
structure RagEnv where
  embedOutcome : Except String Unit
  searchOutcome : Except String (List ScoredPoint)
  genOutcome : Except String String
deriving DecidableEq, Repr

/-- Body of `LangChainPipeline.search_similar_chunks` (lines 131-167)
without its `try/except`: embed the query, search Qdrant with
`limit = top_k`, format the results. An `.error` is an exception escaping
the body. -/
def search_similar_chunks_body (env : RagEnv) (_book_id _query : String)
    (top_k : Nat) : Except String (List ScoredPoint) := do
  let _ ← env.embedOutcome
  let results ← env.searchOutcome
  .ok (results.take top_k)

/-- `LangChainPipeline.search_similar_chunks` (lines 131-167) as its caller
sees it: the whole body is wrapped in `try/except` and any exception is
turned into `return []`. An `.error` result would mean an exception
reaching the caller. -/
def search_similar_chunksE (env : RagEnv) (book_id query : String)
    (top_k : Nat) : Except String (List ScoredPoint) :=
  match search_similar_chunks_body env book_id query top_k with
  | .ok chunks => .ok chunks
  | .error _ => .ok []

/-- The plain value returned by `search_similar_chunks`. -/
def search_similar_chunks (env : RagEnv) (book_id query : String)
    (top_k : Nat) : List ScoredPoint :=
  match search_similar_chunksE env book_id query top_k with
  | .ok chunks => chunks
  | .error _ => []

/-- Python `str.lower()` on the characters that occur in the keyword list:
ASCII letters and the Cyrillic uppercase range (А-Я, Ё). -/
def pyLowerChar (c : Char) : Char :=
  if 0x410 ≤ c.toNat && c.toNat ≤ 0x42F then Char.ofNat (c.toNat + 0x20)
  else if c.toNat == 0x401 then Char.ofNat 0x451
  else c.toLower

/-- Python `str.lower()` over a whole string. -/
def pyLower (s : String) : String :=
  String.mk (s.data.map pyLowerChar)

/-- Python `needle in hay` on strings: some suffix of `hay` starts with
`needle`. -/
def containsSub (needle hay : List Char) : Bool :=
  (List.range (hay.length + 1)).any
    (fun i => List.isPrefixOf needle (hay.drop i))

/-- The keyword list of `_is_inappropriate_content` (lines 169-179). -/
def inappropriate_keywords : List String :=
  ["секс", "sex", "porn", "порно", "xxx",
   "насилие", "violence", "drugs", "наркотики",
   "suicide", "суицид", "самоубийство",
   "hentai", "хентай", "18+", "nsfw"]

/-- `LangChainPipeline._is_inappropriate_content` (lines 169-179): lowercase
the message and test whether any keyword occurs in it. -/
def is_inappropriate_content (message : String) : Bool :=
  let message_lower := pyLower message
  inappropriate_keywords.any (fun kw => containsSub kw.data message_lower.data)

/-- A single quote character, used to spell out the response strings. -/
def sq : String := String.singleton (Char.ofNat 39)

/-- The fixed refusal returned for disallowed content (line 195). -/
def refusal_response : String :=
  "Sorry, I can" ++ sq ++ "t assist with that. Please ask questions related to the book content."

/-- The fixed fallback returned when retrieval finds nothing (line 205). -/
def no_info_response : String :=
  "I couldn" ++ sq ++ "t find relevant information in the book to answer your question."

/-- The `book_metadata` dict the endpoint passes to the pipeline. -/
structure BookMetadata where
  title : Option String
  author : Option String
  description : Option String
deriving DecidableEq, Repr

/-- Python `metadata.get(key) or default`: `or` replaces both a missing key
and an empty string by the default. -/
def pyGetOr (v : Option String) (d : String) : String :=
  match v with
  | some t => if t == "" then d else t
  | none => d

/-- `_get_book_brain_prompt` (lines 275-336). The multi-kilobyte persona
wording is elided — the spec declares the literal prompt text a non-goal
("mode determines persona and citation policy, not the literal prompt
text") — but the structure is kept: the metadata defaults and the
`{context}` / `{question}` placeholders that `.format` later fills. -/
def get_book_brain_prompt (md : BookMetadata) : String :=
  let title := pyGetOr md.title "эта книга"
  let author := pyGetOr md.author "неизвестный автор"
  "BOOK_BRAIN_PERSONA " ++ title ++ " " ++ author ++ " {context} {question}"

/-- `_get_author_mode_prompt` (lines 339-403), wording elided as above. -/
def get_author_mode_prompt (md : BookMetadata) : String :=
  let author := pyGetOr md.author "Робин Шарма"
  let title := pyGetOr md.title "эта книга"
  "AUTHOR_PERSONA " ++ author ++ " " ++ title ++ " {context} {question}"

/-- `_get_coach_mode_prompt` (lines 405-479), wording elided as above. -/
def get_coach_mode_prompt (md : BookMetadata) : String :=
  let title := pyGetOr md.title "эта книга"
  let author := pyGetOr md.author "неизвестный автор"
  "COACH_PERSONA " ++ title ++ " " ++ author ++ " {context} {question}"

/-- `_get_citation_mode_prompt` (lines 482-539), wording elided as above. -/
def get_citation_mode_prompt (md : BookMetadata) : String :=
  let title := pyGetOr md.title "эта книга"
  let author := pyGetOr md.author "неизвестный автор"
  "CITATION_PERSONA " ++ title ++ " " ++ author ++ " {context} {question}"

/-- `prompt.format(context=..., question=...)`. -/
def formatPrompt (tpl context question : String) : String :=
  (tpl.replace "{context}" context).replace "{question}" question

/-- Python `len(s.split())`: the number of maximal non-whitespace runs. -/
def pyWordCount (s : String) : Nat :=
  ((s.data.splitOnP Char.isWhitespace).filter (fun w => w ≠ [])).length

/-- One entry of the `conversation_history` list of dicts built by the
endpoint (`{"role": ..., "content": ...}`). -/
structure HistMsg where
  role : String
  content : String
deriving DecidableEq, Repr

/-- A LangChain message: `HumanMessage` or `AIMessage`. -/
inductive LCMessage where
  | human (content : String)
  | ai (content : String)
deriving DecidableEq, Repr

/-- History dict → LangChain message (lines 230-234): role "user" becomes
`HumanMessage`, anything else `AIMessage`. -/
def toLCMessage (m : HistMsg) : LCMessage :=
  if m.role == "user" then .human m.content else .ai m.content

/-- Python `l[-n:]`. -/
def lastN {α : Type} (n : Nat) (l : List α) : List α :=
  l.drop (l.length - n)

/-- One citation dict (lines 251-259). -/
structure Citation where
  page : Option Nat
  chapter : Option String
  text : String
  relevance_score : Int
deriving DecidableEq, Repr

/-- The dict returned by `LangChainPipeline.chat_with_book`
(`context_chunks` omitted on the two early-return paths, as in the
source; it is not read by any property below). -/
structure RagResult where
  response : String
  citations : List Citation
  tokens_used : Nat
deriving DecidableEq, Repr

/-- Result of one run of `LangChainPipeline.chat_with_book`, instrumented
with how many retrieval (Qdrant search) and generator (LLM) calls were
made and which history window was fed to the model. `.error` in `result`
is the function re-raising the LLM exception. -/
structure ChatTrace where
  result : Except String RagResult
  retrieval_calls : Nat
  generator_calls : Nat
  fed_history : List LCMessage
deriving DecidableEq, Repr

/-- `LangChainPipeline.chat_with_book` (lines 181-273): content filter
first, then retrieval, then the empty-context fallback, then prompt
selection by mode, the `conversation_history[-6:]` window, the LLM call,
citation assembly (CITATION mode only) and the word-count token
estimate. -/
def lc_chat_with_book (env : RagEnv) (book_id user_message : String)
    (mode : ChatMode) (book_metadata : BookMetadata)
    (conversation_history : List HistMsg) : ChatTrace :=
  if is_inappropriate_content user_message then
    { result := .ok { response := refusal_response, citations := [], tokens_used := 0 }
      retrieval_calls := 0, generator_calls := 0, fed_history := [] }
  else
    let relevant_chunks := search_similar_chunks env book_id user_message 5
    if relevant_chunks.isEmpty then
      { result := .ok { response := no_info_response, citations := [], tokens_used := 0 }
        retrieval_calls := 1, generator_calls := 0, fed_history := [] }
    else
      let context := String.intercalate "\n\n" (relevant_chunks.map (fun c => c.text))
      let prompt :=
        match mode with
        | .BOOK_BRAIN => get_book_brain_prompt book_metadata
        | .AUTHOR => get_author_mode_prompt book_metadata
        | .COACH => get_coach_mode_prompt book_metadata
        | .CITATION => get_citation_mode_prompt book_metadata
      let fed :=
        if conversation_history.isEmpty then []
        else (lastN 6 conversation_history).map toLCMessage
      let formatted_prompt := formatPrompt prompt context user_message
      match env.genOutcome with
      | .error e =>
          { result := .error e
            retrieval_calls := 1, generator_calls := 1, fed_history := fed }
      | .ok response_content =>
          let citations :=
            if mode == ChatMode.CITATION then
              (relevant_chunks.take 3).map (fun c =>
                { page := c.page, chapter := c.chapter
                  text := c.text.take 200, relevance_score := c.score })
            else []
          let tokens_used := pyWordCount formatted_prompt + pyWordCount response_content
          { result := .ok { response := response_content, citations := citations
                            tokens_used := tokens_used }
            retrieval_calls := 1, generator_calls := 1, fed_history := fed }

/-! ## Chat endpoint (api/chat.py) -/

/-- Slice of `models/book.py` read by the chat endpoint. -/
structure Book where
  is_processed : Bool
  title : Option String
  author : Option String
  description : Option String
deriving DecidableEq, Repr

/-- The `ChatRequest` schema fields the endpoint reads. -/
structure ChatRequest where
  book_id : String
  session_id : Option String
  message : String
  mode : ChatMode
  include_citations : Bool
deriving DecidableEq, Repr

/-- Environment of one request to the `chat_with_book` endpoint: the result
of the owner-scoped book lookup, the outcome of the
`rag_pipeline.chat_with_book` call (a collaborator from the endpoint's
point of view; its internals are `lc_chat_with_book` above), the fresh
`uuid4` session id, and the outcomes of the two `db.commit()` sites (the
one inside `consume_tokens` and the final one). -/
structure ApiEnv where
  book : Option Book
  rag_outcome : Except String RagResult
  new_session_id : String
  commit1_ok : Bool
  commit2_ok : Bool
deriving DecidableEq, Repr

def bookNotFound : HttpError :=
  { status_code := 404, detail := "Book not found" }

def stillProcessing : HttpError :=
  { status_code := 400, detail := "Book is still being processed. Please wait." }

def generationFailed : HttpError :=
  { status_code := 500, detail := "Failed to generate response" }

/-- An exception that escapes the endpoint uncaught (a failed commit)
surfaces as a bare 500. -/
def internalServerError : HttpError :=
  { status_code := 500, detail := "Internal Server Error" }

/-- The fixed estimate the endpoint pre-checks against
(`estimated_tokens = 500`, api/chat.py line 54). -/
def estimated_tokens : Nat := 500

/-- The history-building loop of the endpoint (api/chat.py lines 69-71):
each past Chat row contributes a user dict and an assistant dict. -/
def build_conversation_history (past_chats : List ChatRec) : List HistMsg :=
  past_chats.flatMap (fun c =>
    [{ role := "user", content := c.user_message },
     { role := "assistant", content := c.ai_response }])

/-- The past chats the endpoint loads for a session (api/chat.py lines
62-67): `select(Chat).where(session_id == sid).order_by(created_at.asc())
.limit(10)` — the FIRST ten rows in ascending creation order. `chats` is
the session's full row list in ascending creation order. -/
def load_past_chats (chats : List ChatRec) (sid : String) : List ChatRec :=
  (chats.filter (fun c => c.session_id == sid)).take 10

/-- Outcome of one endpoint request: the HTTP result, the committed
database state afterwards, whether `rag_pipeline.chat_with_book` was
invoked, and the `conversation_history` passed to it. -/
structure ApiResult where
  result : Except HttpError ChatRec
  db : Db
  rag_called : Bool
  history_passed : List HistMsg
deriving DecidableEq, Repr

/-- The `chat_with_book` endpoint (api/chat.py lines 24-135): book lookup
and ownership check, `is_processed` gate, `check_token_limit` with the
fixed 500-token estimate, history loading for an existing session, the
RAG call, then `db.add(chat)` followed by `consume_tokens` (whose commit
persists the chat row, the subscription update and the usage row
together) and the final `db.commit()`. -/
def api_chat_with_book (env : ApiEnv) (req : ChatRequest) (db : Db)
    (user_id : String) : ApiResult :=
  let s := Sess.fresh db
  match env.book with
  | none =>
      { result := .error bookNotFound, db := db, rag_called := false
        history_passed := [] }
  | some book =>
      if !book.is_processed then
        { result := .error stillProcessing, db := db, rag_called := false
          history_passed := [] }
      else
        match check_token_limit s estimated_tokens with
        | .error e =>
            { result := .error e, db := db, rag_called := false
              history_passed := [] }
        | .ok _ =>
            let session_id :=
              match req.session_id with
              | some sid => sid
              | none => env.new_session_id
            let conversation_history :=
              match req.session_id with
              | some sid => build_conversation_history (load_past_chats db.chats sid)
              | none => []
            match env.rag_outcome with
            | .error _ =>
                { result := .error generationFailed, db := db, rag_called := true
                  history_passed := conversation_history }
            | .ok r =>
                let chat : ChatRec :=
                  { session_id := session_id, mode := req.mode
                    user_message := req.message, ai_response := r.response
                    tokens_used := r.tokens_used }
                let s := { s with pendingChats := s.pendingChats ++ [chat] }
                match consume_tokens s user_id r.tokens_used "chat"
                    (some req.mode.value) env.commit1_ok with
                | .error _ =>
                    { result := .error internalServerError, db := db
                      rag_called := true, history_passed := conversation_history }
                | .ok s2 =>
                    match Sess.commit env.commit2_ok s2 with
                    | .error _ =>
                        { result := .error internalServerError, db := s2.committed
                          rag_called := true, history_passed := conversation_history }
                    | .ok s3 =>
                        { result := .ok chat, db := s3.committed
                          rag_called := true, history_passed := conversation_history }

/-- Composition of the two history bounds the code applies between storage
and the model: the endpoint loads the first ten rows of the session
(`load_past_chats`) and flattens them (`build_conversation_history`), and
`lc_chat_with_book` then feeds `conversation_history[-6:]` to the model. -/
def fed_history_window (chats : List ChatRec) (sid : String) : List HistMsg :=
  lastN 6 (build_conversation_history (load_past_chats chats sid))

/-! ## Claims -/

/-- Claim C1 (refuted by the code, supporting theorem): re-running ingestion
for a book whose collection `book_b` already holds 5 segments from a prior
run does NOT delete and recreate the collection — `create_book_collection`
keeps an existing collection as is, and the re-ingested points get fresh
UUIDs — so after a reprocess of 5 chunks the book is marked completed with
`total_chunks = 5` while the index holds 10 segments: duplicates remain and
the segment count does not equal `total_chunks`. -/
theorem C1_reprocess_leaves_duplicate_segments :
    (process_book_task (fun _ => ["c0", "c1", "c2", "c3", "c4"]) (fun _ => true)
        [("book_b", 5)] ⟨false, "pending", none, 0⟩ "b"
        (String.mk (List.replicate 100 'x'))).1.processing_status = "completed" ∧
    (process_book_task (fun _ => ["c0", "c1", "c2", "c3", "c4"]) (fun _ => true)
        [("book_b", 5)] ⟨false, "pending", none, 0⟩ "b"
        (String.mk (List.replicate 100 'x'))).1.total_chunks = 5 ∧
    collectionCount
        (process_book_task (fun _ => ["c0", "c1", "c2", "c3", "c4"]) (fun _ => true)
          [("book_b", 5)] ⟨false, "pending", none, 0⟩ "b"
          (String.mk (List.replicate 100 'x'))).2 "book_b" = some 10 := by
  decide

/-- Claim C4: a message matching the disallowed-content keyword filter makes
`chat_with_book` return the fixed refusal with zero token cost, without a
single retrieval call and without a single generator call — the filter runs
before retrieval. -/
theorem C4_filter_blocks_before_retrieval (env : RagEnv)
    (book_id user_message : String) (mode : ChatMode) (md : BookMetadata)
    (hist : List HistMsg)
    (h : is_inappropriate_content user_message = true) :
    lc_chat_with_book env book_id user_message mode md hist =
      { result := .ok { response := refusal_response, citations := [], tokens_used := 0 }
        retrieval_calls := 0, generator_calls := 0, fed_history := [] } := by
  unfold lc_chat_with_book
  rw [h]
  simp

/-- Witness for C4 at a concrete flagged message. -/
theorem C4_filter_blocks_before_retrieval_witness :
    is_inappropriate_content "tell me about porn" = true ∧
    lc_chat_with_book ⟨.ok (), .ok [], .ok "resp"⟩ "b1" "tell me about porn"
        .BOOK_BRAIN ⟨none, none, none⟩ [] =
      { result := .ok { response := refusal_response, citations := [], tokens_used := 0 }
        retrieval_calls := 0, generator_calls := 0, fed_history := [] } :=
  ⟨by decide, C4_filter_blocks_before_retrieval _ _ _ _ _ _ (by decide)⟩

/-- Claim C5: a chat request on a book whose `is_processed` flag is false is
rejected with the 400 "still processing" condition; the RAG pipeline (and
thus retrieval and the generator) is never invoked, the committed database
is unchanged (no Exchange persisted), and no budget is consumed — the gate
sits before `check_token_limit`. -/
theorem C5_unprocessed_book_rejected (env : ApiEnv) (req : ChatRequest)
    (db : Db) (user_id : String) (book : Book)
    (hbook : env.book = some book)
    (hproc : book.is_processed = false) :
    api_chat_with_book env req db user_id =
      { result := .error stillProcessing, db := db, rag_called := false
        history_passed := [] } := by
  unfold api_chat_with_book
  rw [hbook]
  simp [hproc]

/-- Witness for C5 at a concrete unprocessed book. -/
theorem C5_unprocessed_book_rejected_witness :
    api_chat_with_book ⟨some ⟨false, some "T", none, none⟩, .ok ⟨"r", [], 9⟩, "s1", true, true⟩
        ⟨"b", none, "hi", .COACH, false⟩ ⟨some ⟨0, 1000⟩, [], []⟩ "u" =
      { result := .error stillProcessing, db := ⟨some ⟨0, 1000⟩, [], []⟩
        rag_called := false, history_passed := [] } :=
  C5_unprocessed_book_rejected _ _ _ _ ⟨false, some "T", none, none⟩ rfl rfl

/-- Claim C6: when retrieval yields no chunks (and the message passes the
content filter), `chat_with_book` returns the fixed "couldn't find relevant
information" fallback with zero token cost, after exactly one retrieval
call and zero generator calls — no hallucinated answer is generated. -/
theorem C6_empty_retrieval_fallback (env : RagEnv)
    (book_id user_message : String) (mode : ChatMode) (md : BookMetadata)
    (hist : List HistMsg)
    (h1 : is_inappropriate_content user_message = false)
    (h2 : search_similar_chunks env book_id user_message 5 = []) :
    lc_chat_with_book env book_id user_message mode md hist =
      { result := .ok { response := no_info_response, citations := [], tokens_used := 0 }
        retrieval_calls := 1, generator_calls := 0, fed_history := [] } := by
  unfold lc_chat_with_book
  rw [h1]
  simp [h2]

/-- Witness for C6 at a concrete query whose search returns nothing. -/
theorem C6_empty_retrieval_fallback_witness :
    is_inappropriate_content "What is the theme?" = false ∧
    lc_chat_with_book ⟨.ok (), .ok [], .ok "resp"⟩ "b1" "What is the theme?"
        .AUTHOR ⟨none, none, none⟩ [] =
      { result := .ok { response := no_info_response, citations := [], tokens_used := 0 }
        retrieval_calls := 1, generator_calls := 0, fed_history := [] } :=
  ⟨by decide, C6_empty_retrieval_fallback _ _ _ _ _ _ (by decide) (by decide)⟩

/-- Claim C9 (refuted by the code, supporting theorem): with 4 chunks of
which 3 fail to embed (75% failure, above any 50% threshold), the
ingestion task still marks the book completed with `total_chunks = 1` —
the per-chunk `try/except continue` swallows the failures and no
failure-fraction threshold is ever evaluated, so the ingestion completes
silently incomplete instead of being marked failed. -/
theorem C9_mostly_failed_ingestion_completes :
    (process_book_task (fun _ => ["a", "b", "c", "d"]) (fun i => i == 0)
        [] ⟨false, "pending", none, 0⟩ "b9"
        (String.mk (List.replicate 100 'x'))).1 =
      { is_processed := true, processing_status := "completed"
        processing_error := none, total_chunks := 1 } := by
  decide

/-- Claim C10: `consume_tokens` for a user with no Subscription row is a
silent no-op — it returns without error and leaves the session (hence the
committed state and usage records) untouched — while `check_token_limit`
raises the 404 "Subscription not found" error for the same session. -/
theorem C10_consume_without_subscription_is_noop (s : Sess)
    (h : s.currentSub = none) (user_id action : String) (tokens : Nat)
    (mode : Option String) (commitOk : Bool) (tokens_needed : Nat) :
    consume_tokens s user_id tokens action mode commitOk = .ok s ∧
    check_token_limit s tokens_needed = .error subscriptionNotFound := by
  unfold consume_tokens check_token_limit
  rw [h]
  exact ⟨rfl, rfl⟩

/-- Witness for C10 on a fresh session over a database with no
subscription row. -/
theorem C10_consume_without_subscription_is_noop_witness :
    consume_tokens (Sess.fresh ⟨none, [], []⟩) "u" 42 "chat" none true =
      .ok (Sess.fresh ⟨none, [], []⟩) ∧
    check_token_limit (Sess.fresh ⟨none, [], []⟩) 500 =
      .error subscriptionNotFound :=
  C10_consume_without_subscription_is_noop _ (by decide) _ _ _ _ _ _

/-- Claim C2 counterexample: the pre-check only guarantees
`tokens_used + 500 ≤ token_limit` for the FIXED estimate, while the actual
cost deducted afterwards is unbounded. With a subscription at 400/1000 the
pre-check passes (400 + 500 ≤ 1000), yet an exchange whose actual cost is
700 tokens drives `tokens_used` to 1100, above the 1000 limit — the claim
"tokens_used never exceeds token_limit" is false on the code. -/
theorem C2_actual_cost_exceeds_limit :
    let db : Db := ⟨some ⟨400, 1000⟩, [], []⟩
    let env : ApiEnv := ⟨some ⟨true, none, none, none⟩, .ok ⟨"resp", [], 700⟩, "s1", true, true⟩
    let req : ChatRequest := ⟨"b", none, "hello", .BOOK_BRAIN, false⟩
    (api_chat_with_book env req db "u").result =
      .ok ⟨"s1", .BOOK_BRAIN, "hello", "resp", 700⟩ ∧
    (api_chat_with_book env req db "u").db.subscription = some ⟨1100, 1000⟩ ∧
    1000 < 1100 := by
  decide

/-- Claim C2 as amended: the hard cap is checked before the model call
against the fixed 500-token estimate, so on every successful chat request
the final `tokens_used` exceeds `token_limit` by at most the amount the
actual cost exceeds the estimate; in particular whenever the actual cost
is at most 500 tokens, `tokens_used` never exceeds `token_limit`. -/
theorem C2_amended_hard_cap_up_to_estimate (env : ApiEnv) (req : ChatRequest)
    (db : Db) (user_id : String) (r : RagResult) (chat : ChatRec)
    (sub' : Subscription)
    (hr : env.rag_outcome = .ok r)
    (hok : (api_chat_with_book env req db user_id).result = .ok chat)
    (hsub : (api_chat_with_book env req db user_id).db.subscription = some sub') :
    sub'.tokens_used + estimated_tokens ≤ sub'.token_limit + r.tokens_used ∧
    (r.tokens_used ≤ estimated_tokens → sub'.tokens_used ≤ sub'.token_limit) := by
  cases hbk : env.book with
  | none => simp [api_chat_with_book, hbk] at hok
  | some bk =>
    cases hproc : bk.is_processed with
    | false => simp [api_chat_with_book, hbk, hproc] at hok
    | true =>
      cases hdb : db.subscription with
      | none =>
          simp [api_chat_with_book, check_token_limit, Sess.currentSub,
            Sess.fresh, hbk, hproc, hdb] at hok
      | some sub =>
          by_cases hlim : sub.tokens_used + estimated_tokens > sub.token_limit
          · simp [api_chat_with_book, check_token_limit, Sess.currentSub,
              Sess.fresh, hbk, hproc, hdb, hlim] at hok
          · cases hc1 : env.commit1_ok with
            | false =>
                simp [api_chat_with_book, check_token_limit, consume_tokens,
                  Sess.currentSub, Sess.fresh, Sess.commit, hbk, hproc, hdb,
                  hlim, hr, hc1] at hok
            | true =>
                cases hc2 : env.commit2_ok with
                | false =>
                    simp [api_chat_with_book, check_token_limit, consume_tokens,
                      Sess.currentSub, Sess.fresh, Sess.commit, Sess.applyPending,
                      hbk, hproc, hdb, hlim, hr, hc1, hc2] at hok
                | true =>
                    simp [api_chat_with_book, check_token_limit, consume_tokens,
                      Sess.currentSub, Sess.fresh, Sess.commit, Sess.applyPending,
                      hbk, hproc, hdb, hlim, hr, hc1, hc2] at hsub
                    simp [estimated_tokens] at hlim
                    subst hsub
                    simp [estimated_tokens]
                    omega

/-- Witness for the amended C2 on a request whose actual cost (300) is
below the 500-token estimate. -/
theorem C2_amended_hard_cap_up_to_estimate_witness :
    300 + estimated_tokens ≤ 1000 + 300 ∧ (300 ≤ estimated_tokens → 300 ≤ 1000) :=
  C2_amended_hard_cap_up_to_estimate
    ⟨some ⟨true, none, none, none⟩, .ok ⟨"resp", [], 300⟩, "s1", true, true⟩
    ⟨"b", none, "hi", .BOOK_BRAIN, false⟩ ⟨some ⟨0, 1000⟩, [], []⟩ "u"
    ⟨"resp", [], 300⟩ ⟨"s1", .BOOK_BRAIN, "hi", "resp", 300⟩ ⟨300, 1000⟩
    rfl (by decide) (by decide)

/-- Claim C3: token consumption is all-or-nothing with Exchange
persistence. `db.add(chat)` happens before `consume_tokens`, whose
`db.commit()` persists the chat row, the subscription update and the
usage row in one transaction; a failed commit leaves the committed state
untouched. Hence every request either changes nothing (chats,
subscription and usage records all keep their prior values) or commits
the new exchange together with the token deduction and the usage
record. -/
theorem C3_consumption_atomic_with_persistence (env : ApiEnv)
    (req : ChatRequest) (db : Db) (user_id : String) :
    ((api_chat_with_book env req db user_id).db.chats = db.chats ∧
     (api_chat_with_book env req db user_id).db.subscription = db.subscription ∧
     (api_chat_with_book env req db user_id).db.usages = db.usages) ∨
    (∃ sub r,
      db.subscription = some sub ∧
      env.rag_outcome = .ok r ∧
      (api_chat_with_book env req db user_id).db.chats = db.chats ++
        [{ session_id := match req.session_id with
             | some sid => sid
             | none => env.new_session_id
           mode := req.mode
           user_message := req.message
           ai_response := r.response
           tokens_used := r.tokens_used }] ∧
      (api_chat_with_book env req db user_id).db.subscription =
        some { tokens_used := sub.tokens_used + r.tokens_used
               token_limit := sub.token_limit } ∧
      (api_chat_with_book env req db user_id).db.usages = db.usages ++
        [{ user_id := user_id, tokens_used := r.tokens_used, action := "chat"
           mode := some req.mode.value }]) := by
  cases hbk : env.book with
  | none => left; simp [api_chat_with_book, hbk]
  | some bk =>
    cases hproc : bk.is_processed with
    | false => left; simp [api_chat_with_book, hbk, hproc]
    | true =>
      cases hdb : db.subscription with
      | none =>
          left
          simp [api_chat_with_book, check_token_limit, Sess.currentSub,
            Sess.fresh, hbk, hproc, hdb]
      | some sub =>
          by_cases hlim : sub.tokens_used + estimated_tokens > sub.token_limit
          · left
            simp [api_chat_with_book, check_token_limit, Sess.currentSub,
              Sess.fresh, hbk, hproc, hdb, hlim]
          · cases hr : env.rag_outcome with
            | error e =>
                left
                simp [api_chat_with_book, check_token_limit, Sess.currentSub,
                  Sess.fresh, hbk, hproc, hdb, hlim, hr]
            | ok r =>
                cases hc1 : env.commit1_ok with
                | false =>
                    left
                    simp [api_chat_with_book, check_token_limit, consume_tokens,
                      Sess.currentSub, Sess.fresh, Sess.commit, hbk, hproc, hdb,
                      hlim, hr, hc1]
                | true =>
                    right
                    refine ⟨sub, r, rfl, rfl, ?_, ?_, ?_⟩ <;>
                      cases hc2 : env.commit2_ok <;>
                        simp [api_chat_with_book, check_token_limit,
                          consume_tokens, Sess.currentSub, Sess.fresh,
                          Sess.commit, Sess.applyPending, hbk, hproc, hdb,
                          hlim, hr, hc1, hc2]

/-- Claim C7 counterexample: the endpoint loads the FIRST ten chats of the
session (`order_by(created_at.asc()).limit(10)`), and the pipeline then
feeds the last 6 messages of that list. For a session holding 11
exchanges the window fed to the model covers exchanges 8-10 — not the
most recent exchanges 9-11 that "the last 3 exchanges of the session"
would be. -/
theorem C7_window_not_most_recent :
    let chats := (List.range 11).map (fun i =>
      ({ session_id := "s", mode := .BOOK_BRAIN
         user_message := "u" ++ toString i, ai_response := "a" ++ toString i
         tokens_used := 0 } : ChatRec))
    fed_history_window chats "s" ≠
      lastN 6 (build_conversation_history (chats.filter (fun c => c.session_id == "s"))) := by
  decide

/-- Claim C7 as amended: the history fed to the model is the last 3
exchanges (6 messages) of the FIRST ten stored exchanges of the session;
it never exceeds 6 messages, and for sessions holding at most ten
exchanges it coincides with the most recent 3 exchanges of the whole
session. -/
theorem C7_amended_bounded_window (chats : List ChatRec) (sid : String) :
    (fed_history_window chats sid).length ≤ 6 ∧
    ((chats.filter (fun c => c.session_id == sid)).length ≤ 10 →
      fed_history_window chats sid =
        lastN 6 (build_conversation_history
          (chats.filter (fun c => c.session_id == sid)))) := by
  constructor
  · simp [fed_history_window, lastN]
    omega
  · intro h
    simp [fed_history_window, load_past_chats, List.take_of_length_le h]

/-- Witness for the amended C7 on a two-exchange session. -/
theorem C7_amended_bounded_window_witness :
    (fed_history_window
      [⟨"s", .BOOK_BRAIN, "u1", "a1", 0⟩, ⟨"s", .BOOK_BRAIN, "u2", "a2", 0⟩] "s").length ≤ 6 ∧
    fed_history_window
      [⟨"s", .BOOK_BRAIN, "u1", "a1", 0⟩, ⟨"s", .BOOK_BRAIN, "u2", "a2", 0⟩] "s" =
      lastN 6 (build_conversation_history
        (([⟨"s", .BOOK_BRAIN, "u1", "a1", 0⟩,
           ⟨"s", .BOOK_BRAIN, "u2", "a2", 0⟩] : List ChatRec).filter
          (fun c => c.session_id == "s"))) :=
  ⟨(C7_amended_bounded_window _ "s").1,
   (C7_amended_bounded_window _ "s").2 (by decide)⟩

/-- Claim C8: `search_similar_chunks` never lets an exception reach its
caller — its `try/except` turns every failure of the embedding call or
the Qdrant search (including a missing collection) into the empty list,
and a search over an empty collection also yields the empty list. -/
theorem C8_search_never_raises (env : RagEnv) (book_id query : String)
    (top_k : Nat) (e : String) :
    search_similar_chunksE env book_id query top_k =
      .ok (search_similar_chunks env book_id query top_k) ∧
    (env.embedOutcome = .error e →
      search_similar_chunks env book_id query top_k = []) ∧
    (env.searchOutcome = .error e →
      search_similar_chunks env book_id query top_k = []) ∧
    (env.searchOutcome = .ok [] →
      search_similar_chunks env book_id query top_k = []) := by
  refine ⟨?_, ?_, ?_, ?_⟩
  · cases hb : search_similar_chunks_body env book_id query top_k <;>
      simp [search_similar_chunksE, search_similar_chunks, hb]
  · intro hemb
    simp [search_similar_chunks, search_similar_chunksE,
      search_similar_chunks_body, hemb, bind, Except.bind]
  · intro hsearch
    cases hemb : env.embedOutcome <;>
      simp [search_similar_chunks, search_similar_chunksE,
        search_similar_chunks_body, hemb, hsearch, bind, Except.bind]
  · intro hsearch
    cases hemb : env.embedOutcome <;>
      simp [search_similar_chunks, search_similar_chunksE,
        search_similar_chunks_body, hemb, hsearch, bind, Except.bind]

/-- Witness for C8 when the Qdrant search raises (missing collection). -/
theorem C8_search_never_raises_witness :
    search_similar_chunks ⟨.ok (), .error "collection does not exist", .ok "r"⟩
      "bx" "q" 5 = [] ∧
    search_similar_chunksE ⟨.ok (), .error "collection does not exist", .ok "r"⟩
      "bx" "q" 5 = .ok [] := by
  have h := C8_search_never_raises
    ⟨.ok (), .error "collection does not exist", .ok "r"⟩ "bx" "q" 5
    "collection does not exist"
  exact ⟨h.2.2.1 rfl, by rw [h.1, h.2.2.1 rfl]⟩

end Librarity
